import Mathlib

/-!
Shallow embedding of the blog-admin repository's core logic:

* `useApi` composable (src/types/BlogPost.ts): `fetchData` with an in-memory
  per-endpoint cache, and `clearCache`.
* The blog-post list component (src/unnamed/part_000): `fetchBlogPosts`,
  `filteredBlogPosts`, `confirmDelete`/`cancelDelete`/`proceedDelete`,
  `truncateContent`.
* The blog-post form component (src/components/BlogPostForm.vue):
  `fetchBlogPost`, `submitForm`.

Modelling conventions:
* JS `Map<string, any>` becomes an association list `Cache` with Map
  semantics (at most one entry per key).
* The network is an oracle `net : Nat → NetResponse` indexed by the number of
  network requests issued so far; `ApiState.netCount` counts issued requests,
  so "issues no network request" is `netCount` staying fixed (equivalently a
  `none`/`[]` request log).
* JSON response bodies become the `ApiValue` sum covering the shapes this app
  reads (a single post object possibly missing fields, list responses with an
  optional `data` field, JSON `null`); `JSON.stringify(payload)` request bodies
  are kept structured as `Payload`.
* JS truthiness on numbers conflates `0` and `undefined`; both are modelled as
  the Nat `0` (the conflated cases only reach branches where they behave the
  same way).
* Strings are Lean `String`; the claims only use ASCII, where JS UTF-16
  length/slice and Lean codepoint length/take agree.
-/

/-- Status is a string at runtime in TS (`'published' | 'unpublished'`). -/
structure BlogPost where
  id : Nat
  title : String
  content : String
  author : String
  status : String
  deriving DecidableEq

structure Author where
  id : Nat
  name : String
  deriving DecidableEq

/-- Type `BlogPostCreateProps` from src/types/BlogPost.ts (the form draft shape). -/
structure BlogPostCreateProps where
  title : String
  content : String
  author : Author
  status : String
  deriving DecidableEq

/-- TS `Partial<BlogPost>`: a post object all of whose fields may be absent. -/
structure PartialBlogPost where
  id : Option Nat := none
  title : Option String := none
  content : Option String := none
  author : Option String := none
  status : Option String := none
  deriving DecidableEq

/-- A decoded JSON response body, covering the shapes this app consumes:
a single post object, a list response carrying an optional `data` array of
posts or of authors, or JSON `null`. -/
inductive ApiValue where
  | nullv
  | post (p : PartialBlogPost)
  | posts (data : Option (List BlogPost))
  | authorsResp (data : Option (List Author))
  deriving DecidableEq

namespace ApiValue

/-- JS `value.id` as read off a response object (absent on non-post shapes). -/
def idField : ApiValue → Option Nat
  | .post p => p.id
  | _ => none

/-- JS `value?.author` (absent on non-post shapes). -/
def authorField : ApiValue → Option String
  | .post p => p.author
  | _ => none

/-- JS `response.data || []` in `fetchBlogPosts`: the `data` array of a list
response, or the empty list when the field is missing or the response has a
different shape. -/
def dataPosts : ApiValue → List BlogPost
  | .posts (some l) => l
  | _ => []

end ApiValue

/-- The in-memory cache `Map<string, any>` of `useApi`, as an association
list from endpoint strings to decoded response bodies. -/
abbrev Cache := List (String × ApiValue)

/-- JS `cache.get(k)` (combined with `cache.has(k)`: `has` holds iff this is
`some`). -/
def cacheGet (c : Cache) (k : String) : Option ApiValue :=
  match c.find? (fun e => e.1 == k) with
  | some e => some e.2
  | none => none

/-- JS `cache.delete(k)`: remove the entry for `k` (no-op when absent). -/
def cacheDelete (c : Cache) (k : String) : Cache :=
  c.filter (fun e => e.1 != k)

/-- JS `cache.set(k, v)`: store `v` under `k`, keeping at most one entry per key
as a JS `Map` does. -/
def cacheSet (c : Cache) (k : String) (v : ApiValue) : Cache :=
  (k, v) :: cacheDelete c k

/-- Server behaviour for one network request: either a 2xx response whose body
decodes to `data` (`response.ok`, `response.json()`), or a non-2xx response
with raw body text `bodyText` (`response.text()`). -/
inductive NetResponse where
  | ok (data : ApiValue)
  | httpError (bodyText : String)
  deriving DecidableEq

/-- The create/update payload `{ title, content, author_id, status }` built by
`submitForm`. -/
structure Payload where
  title : String
  content : String
  author_id : Nat
  status : String
  deriving DecidableEq

/-- The caller-supplied `RequestInit` options of `fetchData`: HTTP method,
optional structured body (standing for `JSON.stringify` of it), and extra
headers. Defaults model the JS defaults (`fetch` defaults to GET, no body). -/
structure RequestOptions where
  method : String := "GET"
  body : Option Payload := none
  headers : List (String × String) := []
  deriving DecidableEq

/-- Mutable state owned by the `useApi` instance: the cache, plus the count of
network requests issued so far (the index into the network oracle). -/
structure ApiState where
  cache : Cache
  netCount : Nat
  deriving DecidableEq

/-- Object-spread header merge `{ ...defaults, ...options.headers }`:
caller-supplied headers win on key conflict. -/
def mergeHeaders (defaults callerHeaders : List (String × String)) :
    List (String × String) :=
  defaults.filter (fun d => !(callerHeaders.any (fun h => h.1 == d.1)))
    ++ callerHeaders

/-- The network request `fetch` would issue: target endpoint (the URL is
`apiUrl ++ "/" ++ endpoint`; the constant prefix is elided), method, merged
headers, body. -/
structure NetRequest where
  endpoint : String
  method : String
  headers : List (String × String)
  body : Option Payload
  deriving DecidableEq

instance : DecidableEq (Except String ApiValue)
  | .ok a, .ok b =>
    if h : a = b then isTrue (by rw [h])
    else isFalse (fun hc => h (Except.ok.inj hc))
  | .ok _, .error _ => isFalse Except.noConfusion
  | .error _, .ok _ => isFalse Except.noConfusion
  | .error a, .error b =>
    if h : a = b then isTrue (by rw [h])
    else isFalse (fun hc => h (Except.error.inj hc))

/-- Outcome of one `fetchData` call: the value returned / error thrown, the
api state afterwards, and the network request issued, if any. -/
structure FetchOut where
  result : Except String ApiValue
  state : ApiState
  request : Option NetRequest
  deriving DecidableEq

/-- Model of `fetchData(endpoint, options)` from `useApi`: answer from the cache when an
entry for `endpoint` exists (ignoring `options` entirely); otherwise issue one
network request with merged headers, throw the raw body text on a non-ok
status, and on success cache the decoded body under `endpoint` and return it.
`apiKey` is the configured API key sent as the `x-key` header. -/
def fetchData (apiKey : String) (net : Nat → NetResponse) (endpoint : String)
    (options : RequestOptions) (st : ApiState) : FetchOut :=
  match cacheGet st.cache endpoint with
  | some v => { result := .ok v, state := st, request := none }
  | none =>
    let headers := mergeHeaders
      [("Content-Type", "application/json"), ("x-key", apiKey)] options.headers
    let req : NetRequest :=
      { endpoint := endpoint, method := options.method, headers := headers,
        body := options.body }
    match net st.netCount with
    | .httpError bodyText =>
      { result := .error bodyText,
        state := { st with netCount := st.netCount + 1 },
        request := some req }
    | .ok data =>
      { result := .ok data,
        state := { cache := cacheSet st.cache endpoint data,
                   netCount := st.netCount + 1 },
        request := some req }

/-- Model of `clearCache(endpoint)` from `useApi`: remove the cached entry. -/
def clearCache (endpoint : String) (st : ApiState) : ApiState :=
  { st with cache := cacheDelete st.cache endpoint }

/-- One operation against the `useApi` instance, for stating properties about
sequences of calls between two observations. -/
inductive ApiOp where
  | fetch (endpoint : String) (options : RequestOptions)
  | clear (endpoint : String)
  deriving DecidableEq

/-- Run one `ApiOp` for its state effect. -/
def runOp (apiKey : String) (net : Nat → NetResponse) (op : ApiOp)
    (st : ApiState) : ApiState :=
  match op with
  | .fetch e opts => (fetchData apiKey net e opts st).state
  | .clear e => clearCache e st

/-- Run a sequence of `ApiOp`s left to right. -/
def runOps (apiKey : String) (net : Nat → NetResponse) :
    List ApiOp → ApiState → ApiState
  | [], st => st
  | op :: ops, st => runOps apiKey net ops (runOp apiKey net op st)

/-- Whether an operation is `clearCache` on the given endpoint. -/
def ApiOp.clears (endpoint : String) : ApiOp → Bool
  | .clear e => e == endpoint
  | _ => false

/-- JS truthiness of a possibly-absent number: `null`/`undefined` and `0` are
falsy. -/
def jsTruthyNum : Option Nat → Bool
  | some n => n != 0
  | none => false

/-!
## List component (src/unnamed/part_000, `<script setup>` part)
-/

/-- The reactive state of the blog-post list component, plus a log of
`console.error` reports (each entry pairs the fixed message with the string
representation of the error). -/
structure ListState where
  isLoading : Bool
  isDeleting : Bool
  blogPosts : List BlogPost
  showConfirmModal : Bool
  postToDelete : Option Nat
  errorLog : List (String × String)
  deriving DecidableEq

/-- The synchronous prefix of `fetchBlogPosts` up to its suspension point
(the `await` of the request): the loading flag is set. -/
def fetchBlogPostsStart (ls : ListState) : ListState :=
  { ls with isLoading := true }

/-- Model of `fetchBlogPosts()`: set the loading flag, request endpoint `"blogs"`
through the api client, on success store `response.data || []`, on failure log
the error and leave the stored posts unchanged, and finally clear the loading
flag. Never throws. -/
def fetchBlogPosts (apiKey : String) (net : Nat → NetResponse)
    (ls : ListState) (st : ApiState) : ListState × ApiState :=
  let ls := fetchBlogPostsStart ls
  let out := fetchData apiKey net "blogs" {} st
  match out.result with
  | .ok response =>
    ({ ls with blogPosts := response.dataPosts, isLoading := false },
     out.state)
  | .error e =>
    ({ ls with
       errorLog := ls.errorLog ++ [("Failed to fetch blog posts:", e)],
       isLoading := false },
     out.state)

/-- The `filteredBlogPosts` computed view: all posts when the selected status
is `"all"`, otherwise the posts whose status equals the selected status. -/
def filteredBlogPosts (selectedStatus : String) (blogPosts : List BlogPost) :
    List BlogPost :=
  if selectedStatus == "all" then blogPosts
  else blogPosts.filter (fun post => post.status == selectedStatus)

/-- Model of `confirmDelete(id)`: record the pending target and show the modal. -/
def confirmDelete (id : Nat) (ls : ListState) : ListState :=
  { ls with postToDelete := some id, showConfirmModal := true }

/-- Model of `cancelDelete()`: hide the modal and clear the pending target. -/
def cancelDelete (ls : ListState) : ListState :=
  { ls with showConfirmModal := false, postToDelete := none }

/-- Model of `proceedDelete()`: when a (truthy) pending target exists, set the deleting
flag and issue a DELETE for `blogs/{id}` through the api client; on success
clear the `"blogs"` cache key, re-run `fetchBlogPosts`, hide the modal and
clear the pending target; on failure log the error; finally clear the deleting
flag. -/
def proceedDelete (apiKey : String) (net : Nat → NetResponse)
    (ls : ListState) (st : ApiState) : ListState × ApiState :=
  if jsTruthyNum ls.postToDelete then
    let id := ls.postToDelete.getD 0
    let ls := { ls with isDeleting := true }
    let out := fetchData apiKey net ("blogs/" ++ Nat.repr id)
      { method := "DELETE" } st
    match out.result with
    | .ok _ =>
      let st := clearCache "blogs" out.state
      let (ls, st) := fetchBlogPosts apiKey net ls st
      let ls := { ls with showConfirmModal := false, postToDelete := none }
      ({ ls with isDeleting := false }, st)
    | .error e =>
      let ls := { ls with
        errorLog := ls.errorLog ++ [("Failed to delete the post:", e)] }
      ({ ls with isDeleting := false }, out.state)
  else
    (ls, st)

/-- Model of `truncateContent(content, maxLength = 100)`: the content unchanged when at
or under the limit, else its first `maxLength` characters followed by
`"..."`. -/
def truncateContent (content : String) (maxLength : Nat := 100) : String :=
  if content.length ≤ maxLength then content
  else content.take maxLength ++ "..."

/-!
## Form component (src/components/BlogPostForm.vue, `<script setup>` part)
-/

/-- The reactive state of the blog-post form component. `blogPost` holds the
raw response object of the single-post GET (`Partial<BlogPost> | null`);
`form` is the editable draft. -/
structure FormState where
  isSubmitting : Bool
  authors : List Author
  currentAuthor : String
  blogPost : Option ApiValue
  errors : List String
  form : BlogPostCreateProps
  deriving DecidableEq

/-- The initial form draft (also the reset value of the `watch`). -/
def emptyForm : BlogPostCreateProps :=
  { title := "", content := "", author := { id := 0, name := "" },
    status := "published" }

/-- Computed `isEditMode`: `!!blogPost.value?.id` (present and nonzero). -/
def isEditMode (fs : FormState) : Bool :=
  jsTruthyNum (fs.blogPost.bind ApiValue.idField)

/-- JS template interpolation of a possibly-absent number, as in
`` `blogs/${blogPost.value?.id}` ``. -/
def jsNumOptToString : Option Nat → String
  | some n => Nat.repr n
  | none => "undefined"

/-- Model of `fetchBlogPost()`: when the route supplies a (truthy, i.e. non-empty)
`id` parameter, GET `blogs/{id}` through the api client; on success store the
response (`response || null`) as the loaded post and its `author` field
(`response?.author || ""`) as the current-author display string; on failure
push an error message. -/
def fetchBlogPost (apiKey : String) (net : Nat → NetResponse)
    (routeId : String) (fs : FormState) (st : ApiState) :
    FormState × ApiState :=
  if routeId != "" then
    let out := fetchData apiKey net ("blogs/" ++ routeId) {} st
    match out.result with
    | .ok response =>
      ({ fs with
         blogPost := match response with
           | .nullv => none
           | v => some v,
         currentAuthor := (response.authorField).getD "" },
       out.state)
    | .error _ =>
      ({ fs with errors := fs.errors ++ ["Failed to fetch the blog post."] },
       out.state)
  else
    (fs, st)

/-- The author id `submitForm` resolves: the id of the first loaded author
whose name equals the current-author string, else the draft's held author id
(`authors.value.find(...)` then `selectedAuthor ? selectedAuthor.id :
form.value.author.id`). -/
def resolvedAuthorId (fs : FormState) : Nat :=
  match fs.authors.find? (fun author => author.name == fs.currentAuthor) with
  | some selectedAuthor => selectedAuthor.id
  | none => fs.form.author.id

/-- One call made to the api client: the endpoint and options passed to
`fetchData`. -/
structure ApiCall where
  endpoint : String
  options : RequestOptions
  deriving DecidableEq

/-- Outcome of one `submitForm` call: the form state and api state afterwards,
the calls made to the api client paired with their results, the network
requests actually issued, and the navigation target (`navigateTo`) if any. -/
structure SubmitOut where
  fs : FormState
  st : ApiState
  apiCalls : List (ApiCall × Except String ApiValue)
  netRequests : List NetRequest
  navigated : Option String
  deriving DecidableEq

/-- Model of `submitForm()`: clear errors, set the submitting flag; resolve the author
id; when it is falsy push `"Author is required."` and stop; otherwise build
the `{title, content, author_id, status}` payload and send it through the api
client as a PUT to `blogs/{id}` in edit mode or a POST to `blogs` otherwise;
on success navigate to `"/"`; on failure push an error message (the api
client throws a plain `Error`, which has no `response` property, so the
structured `error.response.data.errors` branch of the catch is never taken
for its errors and the generic message is pushed); finally clear the
submitting flag and clear the `"blogs"` cache key. -/
def submitForm (apiKey : String) (net : Nat → NetResponse) (fs : FormState)
    (st : ApiState) : SubmitOut :=
  let fs := { fs with errors := [], isSubmitting := true }
  let authorId := resolvedAuthorId fs
  if authorId == 0 then
    let fs := { fs with errors := fs.errors ++ ["Author is required."] }
    { fs := { fs with isSubmitting := false }, st := clearCache "blogs" st,
      apiCalls := [], netRequests := [], navigated := none }
  else
    let payload : Payload :=
      { title := fs.form.title, content := fs.form.content,
        author_id := authorId, status := fs.form.status }
    let call : ApiCall :=
      if isEditMode fs then
        { endpoint := "blogs/" ++ jsNumOptToString
            (fs.blogPost.bind ApiValue.idField),
          options := { method := "PUT", body := some payload } }
      else
        { endpoint := "blogs",
          options := { method := "POST", body := some payload } }
    let out := fetchData apiKey net call.endpoint call.options st
    match out.result with
    | .ok _ =>
      { fs := { fs with isSubmitting := false },
        st := clearCache "blogs" out.state,
        apiCalls := [(call, out.result)],
        netRequests := out.request.toList, navigated := some "/" }
    | .error _ =>
      let fs := { fs with
        errors := fs.errors
          ++ ["An unexpected error occurred. Please try again."] }
      { fs := { fs with isSubmitting := false },
        st := clearCache "blogs" out.state,
        apiCalls := [(call, out.result)],
        netRequests := out.request.toList, navigated := none }

/-!
## Concrete fixtures used by the witnesses
-/

def post1 : BlogPost :=
  { id := 1, title := "a", content := "x", author := "Ann",
    status := "published" }

def post2 : BlogPost :=
  { id := 2, title := "b", content := "y", author := "Bob",
    status := "unpublished" }

def ann : Author := { id := 1, name := "Ann" }

/-- A list-component state holding one loaded post and no pending action. -/
def lsOnePost : ListState :=
  { isLoading := false, isDeleting := false, blogPosts := [post1],
    showConfirmModal := false, postToDelete := none, errorLog := [] }

/-- An empty api state: empty cache, no requests issued yet. -/
def st0 : ApiState := { cache := [], netCount := 0 }

/-- A list-component state with the confirmation modal shown for post 1. -/
def lsPendingDelete : ListState :=
  { isLoading := false, isDeleting := false, blogPosts := [post1],
    showConfirmModal := true, postToDelete := some 1, errorLog := [] }

/-- A form state in create mode whose current author matches the loaded
author list while the draft holds author id 0. -/
def fsCreateAnn : FormState :=
  { isSubmitting := false, authors := [ann], currentAuthor := "Ann",
    blogPost := none, errors := [],
    form := { title := "t", content := "c",
              author := { id := 0, name := "" }, status := "published" } }

/-- A form state with no author match and a draft holding author id 0. -/
def fsNoAuthor : FormState :=
  { isSubmitting := false, authors := [], currentAuthor := "",
    blogPost := none, errors := [], form := emptyForm }

/-- The raw response object of a successful GET of `blogs/1`. -/
def postV : ApiValue :=
  .post { id := some 1, title := some "t", content := some "c",
          author := some "Ann", status := some "published" }

/-- A blank form state, as on component setup. -/
def fsInit : FormState :=
  { isSubmitting := false, authors := [], currentAuthor := "",
    blogPost := none, errors := [], form := emptyForm }

/-- The form state at submit time in edit mode: post `blogs/1` loaded, author
list loaded, current author matching. -/
def fsEdit : FormState :=
  { isSubmitting := false, authors := [ann], currentAuthor := "Ann",
    blogPost := some postV, errors := [], form := emptyForm }

/-!
## Cache lemmas
-/

theorem cacheGet_cons (e : String × ApiValue) (c : Cache) (k : String) :
    cacheGet (e :: c) k = if e.1 == k then some e.2 else cacheGet c k := by
  by_cases h : (e.1 == k) = true
  · rw [if_pos h]
    unfold cacheGet
    rw [@List.find?_cons_of_pos _ (fun x => x.1 == k) e c h]
  · rw [if_neg h]
    unfold cacheGet
    rw [@List.find?_cons_of_neg _ (fun x => x.1 == k) e c h]

theorem cacheDelete_cons (e : String × ApiValue) (c : Cache) (k : String) :
    cacheDelete (e :: c) k =
      if e.1 == k then cacheDelete c k else e :: cacheDelete c k := by
  by_cases h : (e.1 == k) = true
  · rw [if_pos h]
    unfold cacheDelete
    rw [List.filter_cons, if_neg (by simp [bne, h])]
  · have hf : (e.1 == k) = false := Bool.eq_false_iff.mpr h
    rw [if_neg h]
    unfold cacheDelete
    rw [List.filter_cons, if_pos (by simp [bne, hf])]

theorem cacheGet_delete_self (c : Cache) (k : String) :
    cacheGet (cacheDelete c k) k = none := by
  induction c with
  | nil => rfl
  | cons e tl ih =>
    rw [cacheDelete_cons]
    by_cases h : (e.1 == k) = true
    · simpa [h] using ih
    · rw [if_neg h, cacheGet_cons, if_neg h]
      exact ih

theorem cacheGet_delete_ne (c : Cache) (k k' : String) (h : k' ≠ k) :
    cacheGet (cacheDelete c k) k' = cacheGet c k' := by
  induction c with
  | nil => rfl
  | cons e tl ih =>
    rw [cacheDelete_cons]
    by_cases hk : (e.1 == k) = true
    · have hk' : (e.1 == k') = false := by
        rw [beq_iff_eq] at hk
        rw [beq_eq_false_iff_ne, hk]
        exact fun hc => h hc.symm
      rw [if_pos hk, cacheGet_cons, if_neg (by simp [hk'])]
      exact ih
    · rw [if_neg hk, cacheGet_cons, cacheGet_cons, ih]

theorem cacheGet_set_self (c : Cache) (k : String) (v : ApiValue) :
    cacheGet (cacheSet c k v) k = some v := by
  rw [cacheSet, cacheGet_cons, if_pos (by simp)]

theorem cacheGet_set_ne (c : Cache) (k k' : String) (v : ApiValue)
    (h : k' ≠ k) :
    cacheGet (cacheSet c k v) k' = cacheGet c k' := by
  have hne : ¬((k, v).1 == k') = true := by
    simp only [beq_iff_eq]
    exact Ne.symm h
  rw [cacheSet, cacheGet_cons, if_neg hne, cacheGet_delete_ne c k k' h]

theorem cacheDelete_idem (c : Cache) (k : String) :
    cacheDelete (cacheDelete c k) k = cacheDelete c k := by
  induction c with
  | nil => rfl
  | cons e tl ih =>
    rw [cacheDelete_cons]
    by_cases h : (e.1 == k) = true
    · rw [if_pos h]
      exact ih
    · rw [if_neg h, cacheDelete_cons, if_neg h, ih]

/-!
## `fetchData` lemmas
-/

theorem fetchData_cache_hit (apiKey : String) (net : Nat → NetResponse)
    (endpoint : String) (opts : RequestOptions) (st : ApiState) (v : ApiValue)
    (h : cacheGet st.cache endpoint = some v) :
    fetchData apiKey net endpoint opts st =
      { result := .ok v, state := st, request := none } := by
  unfold fetchData
  rw [h]

theorem fetchData_ok_cached (apiKey : String) (net : Nat → NetResponse)
    (endpoint : String) (opts : RequestOptions) (st : ApiState) (v : ApiValue)
    (h : (fetchData apiKey net endpoint opts st).result = .ok v) :
    cacheGet (fetchData apiKey net endpoint opts st).state.cache endpoint =
      some v := by
  cases hc : cacheGet st.cache endpoint with
  | some w =>
    rw [fetchData_cache_hit apiKey net endpoint opts st w hc] at h ⊢
    show cacheGet st.cache endpoint = some v
    rw [hc]
    exact congrArg some (Except.ok.inj (h : Except.ok w = Except.ok v))
  | none =>
    unfold fetchData at h ⊢
    rw [hc] at h ⊢
    cases hn : net st.netCount with
    | httpError b =>
      rw [hn] at h
      exact Except.noConfusion (h : Except.error b = Except.ok v)
    | ok d =>
      rw [hn] at h
      have hd : d = v := Except.ok.inj (h : Except.ok d = Except.ok v)
      show cacheGet (cacheSet st.cache endpoint d) endpoint = some v
      rw [hd]
      exact cacheGet_set_self st.cache endpoint v

theorem runOp_preserves_entry (apiKey : String) (net : Nat → NetResponse)
    (op : ApiOp) (st : ApiState) (E : String) (v : ApiValue)
    (h : cacheGet st.cache E = some v) (hop : op.clears E = false) :
    cacheGet (runOp apiKey net op st).cache E = some v := by
  cases op with
  | clear e =>
    have he : E ≠ e := by
      intro hEe
      subst hEe
      simp [ApiOp.clears] at hop
    show cacheGet (cacheDelete st.cache e) E = some v
    rw [cacheGet_delete_ne st.cache e E he]
    exact h
  | fetch e opts =>
    show cacheGet (fetchData apiKey net e opts st).state.cache E = some v
    cases hc : cacheGet st.cache e with
    | some w =>
      rw [fetchData_cache_hit apiKey net e opts st w hc]
      exact h
    | none =>
      have hne : E ≠ e := by
        intro hEe
        subst hEe
        rw [h] at hc
        exact Option.noConfusion hc
      unfold fetchData
      rw [hc]
      cases hn : net st.netCount with
      | httpError b =>
        show cacheGet st.cache E = some v
        exact h
      | ok d =>
        show cacheGet (cacheSet st.cache e d) E = some v
        rw [cacheGet_set_ne st.cache e E d hne]
        exact h

theorem runOps_preserves_entry (apiKey : String) (net : Nat → NetResponse)
    (ops : List ApiOp) (E : String) (v : ApiValue) :
    ∀ st : ApiState, cacheGet st.cache E = some v →
      (∀ op ∈ ops, op.clears E = false) →
      cacheGet (runOps apiKey net ops st).cache E = some v := by
  induction ops with
  | nil =>
    intro st h _
    exact h
  | cons op ops ih =>
    intro st h hops
    exact ih (runOp apiKey net op st)
      (runOp_preserves_entry apiKey net op st E v h (hops op (by simp)))
      (fun o ho => hops o (List.mem_cons_of_mem op ho))

/-!
## The claims
-/

/-- C1: for every endpoint `E` and any options (any HTTP method or body),
after one successful `fetchData(E)` call, a second `fetchData(E, opts)` with
no intervening `clearCache(E)` (any other api-client calls may run in
between) issues no network request and returns the identical cached value the
first call stored, leaving the api state untouched. -/
theorem c1_second_fetch_served_from_cache
    (apiKey : String) (net : Nat → NetResponse) (E : String)
    (opts1 opts2 : RequestOptions) (st : ApiState) (v : ApiValue)
    (ops : List ApiOp)
    (hok : (fetchData apiKey net E opts1 st).result = .ok v)
    (hops : ∀ op ∈ ops, op.clears E = false) :
    fetchData apiKey net E opts2
        (runOps apiKey net ops (fetchData apiKey net E opts1 st).state) =
      { result := .ok v,
        state := runOps apiKey net ops (fetchData apiKey net E opts1 st).state,
        request := none } := by
  apply fetchData_cache_hit
  exact runOps_preserves_entry apiKey net ops E v
    (fetchData apiKey net E opts1 st).state
    (fetchData_ok_cached apiKey net E opts1 st v hok) hops

/-- Witness for C1 at concrete inputs: a successful GET of `"blogs"` followed
by an unrelated fetch and an unrelated invalidation, then a second call on
`"blogs"` with DELETE options. -/
theorem c1_second_fetch_served_from_cache_witness :
    ((fetchData "key" (fun _ => .ok (.posts (some []))) "blogs" {}
        { cache := [], netCount := 0 }).result = .ok (.posts (some []))) ∧
    (∀ op ∈ ([.fetch "authors" {}, .clear "authors"] : List ApiOp),
      op.clears "blogs" = false) ∧
    fetchData "key" (fun _ => .ok (.posts (some []))) "blogs"
        { method := "DELETE" }
        (runOps "key" (fun _ => .ok (.posts (some [])))
          [.fetch "authors" {}, .clear "authors"]
          (fetchData "key" (fun _ => .ok (.posts (some []))) "blogs" {}
            { cache := [], netCount := 0 }).state) =
      { result := .ok (.posts (some [])),
        state := runOps "key" (fun _ => .ok (.posts (some [])))
          [.fetch "authors" {}, .clear "authors"]
          (fetchData "key" (fun _ => .ok (.posts (some []))) "blogs" {}
            { cache := [], netCount := 0 }).state,
        request := none } :=
  ⟨by decide, by decide,
    c1_second_fetch_served_from_cache "key" (fun _ => .ok (.posts (some [])))
      "blogs" {} { method := "DELETE" } { cache := [], netCount := 0 }
      (.posts (some [])) [.fetch "authors" {}, .clear "authors"]
      (by decide) (by decide)⟩

/-- C5: `clearCache(E)` removes the cache entry for `E`, is idempotent, and a
`fetchData(E)` immediately after it always issues a network request (the
request log is non-empty and the request counter advances), whatever the prior
cache state and options. -/
theorem c5_clearCache_spec (apiKey : String) (net : Nat → NetResponse)
    (E : String) (opts : RequestOptions) (st : ApiState) :
    cacheGet (clearCache E st).cache E = none ∧
    clearCache E (clearCache E st) = clearCache E st ∧
    (fetchData apiKey net E opts (clearCache E st)).request.isSome = true ∧
    (fetchData apiKey net E opts (clearCache E st)).state.netCount =
      st.netCount + 1 := by
  refine ⟨cacheGet_delete_self st.cache E, ?_, ?_⟩
  · show ({ st with
      cache := cacheDelete (cacheDelete st.cache E) E } : ApiState) = _
    rw [cacheDelete_idem]
    rfl
  · have h : cacheGet (clearCache E st).cache E = none :=
      cacheGet_delete_self st.cache E
    unfold fetchData
    rw [h]
    cases hn : net (clearCache E st).netCount with
    | httpError b => exact ⟨rfl, rfl⟩
    | ok d => exact ⟨rfl, rfl⟩

/-- C6: on a non-success HTTP status, `fetchData` rejects with the raw
response body text as the error, leaves the cache unchanged (nothing is
stored for the endpoint), and issues exactly one network request (no
retry). -/
theorem c6_http_error_propagates (apiKey : String) (net : Nat → NetResponse)
    (E : String) (opts : RequestOptions) (st : ApiState) (body : String)
    (hmiss : cacheGet st.cache E = none)
    (hresp : net st.netCount = .httpError body) :
    (fetchData apiKey net E opts st).result = .error body ∧
    (fetchData apiKey net E opts st).state.cache = st.cache ∧
    (fetchData apiKey net E opts st).state.netCount = st.netCount + 1 ∧
    (fetchData apiKey net E opts st).request.isSome = true := by
  unfold fetchData
  rw [hmiss, hresp]
  exact ⟨rfl, rfl, rfl, rfl⟩

/-- Witness for C6: a 500-style response on an empty cache. -/
theorem c6_http_error_propagates_witness :
    (cacheGet ([] : Cache) "blogs" = none) ∧
    ((fun _ => NetResponse.httpError "Internal Server Error") 0
      = NetResponse.httpError "Internal Server Error") ∧
    (fetchData "key" (fun _ => .httpError "Internal Server Error") "blogs" {}
        { cache := [], netCount := 0 }).result =
      .error "Internal Server Error" :=
  ⟨by decide, by decide,
    (c6_http_error_propagates "key"
      (fun _ => .httpError "Internal Server Error") "blogs" {}
      { cache := [], netCount := 0 } "Internal Server Error"
      (by decide) (by decide)).1⟩

/-- C7: in every case — success, client-side validation failure, or request
failure — `submitForm` ends with the submitting flag cleared and the
`"blogs"` cache entry removed. -/
theorem c7_submitForm_finally (apiKey : String) (net : Nat → NetResponse)
    (fs : FormState) (st : ApiState) :
    (submitForm apiKey net fs st).fs.isSubmitting = false ∧
    cacheGet (submitForm apiKey net fs st).st.cache "blogs" = none := by
  simp only [submitForm]
  constructor
  · split
    · rfl
    · split <;> rfl
  · split
    · exact cacheGet_delete_self st.cache "blogs"
    · split <;> exact cacheGet_delete_self _ "blogs"

/-- C9: `filteredBlogPosts "all"` returns exactly the source sequence, and for
a status filter in `{published, unpublished}` it returns exactly the
subsequence (`List.Sublist`: relative order preserved) of posts whose status
equals the filter; being a pure function it never mutates the source. -/
theorem c9_filteredBlogPosts_spec (posts : List BlogPost) (S : String) :
    filteredBlogPosts "all" posts = posts ∧
    (S = "published" ∨ S = "unpublished" →
      filteredBlogPosts S posts =
        posts.filter (fun post => post.status == S) ∧
      (filteredBlogPosts S posts).Sublist posts) := by
  constructor
  · rfl
  · intro hS
    have hne : ¬((S == "all") = true) := by
      rcases hS with h | h <;> subst h <;> decide
    constructor
    · unfold filteredBlogPosts
      rw [if_neg hne]
    · unfold filteredBlogPosts
      rw [if_neg hne]
      exact List.filter_sublist posts

/-- Witness for C9: a two-post list filtered to `"published"`. -/
theorem c9_filteredBlogPosts_spec_witness :
    (("published" : String) = "published" ∨ ("published" : String) = "unpublished") ∧
    (filteredBlogPosts "published"
        [{ id := 1, title := "a", content := "x", author := "Ann",
           status := "published" },
         { id := 2, title := "b", content := "y", author := "Bob",
           status := "unpublished" }] =
      List.filter (fun post => post.status == "published")
        [{ id := 1, title := "a", content := "x", author := "Ann",
           status := "published" },
         { id := 2, title := "b", content := "y", author := "Bob",
           status := "unpublished" }] ∧
     (filteredBlogPosts "published"
        [{ id := 1, title := "a", content := "x", author := "Ann",
           status := "published" },
         { id := 2, title := "b", content := "y", author := "Bob",
           status := "unpublished" }]).Sublist
        [{ id := 1, title := "a", content := "x", author := "Ann",
           status := "published" },
         { id := 2, title := "b", content := "y", author := "Bob",
           status := "unpublished" }]) :=
  ⟨Or.inl rfl,
   (c9_filteredBlogPosts_spec
      [{ id := 1, title := "a", content := "x", author := "Ann",
         status := "published" },
       { id := 2, title := "b", content := "y", author := "Bob",
         status := "unpublished" }] "published").2 (Or.inl rfl)⟩

/-- C10: the truncation helper returns the content unchanged when its length
is at most `maxLength`, else its first `maxLength` characters followed by
`"..."`; the default limit is 100; in particular the two concrete examples of
the spec hold. -/
theorem c10_truncateContent_spec (content : String) (maxLength : Nat) :
    (content.length ≤ maxLength →
      truncateContent content maxLength = content) ∧
    (maxLength < content.length →
      truncateContent content maxLength = content.take maxLength ++ "...") ∧
    truncateContent "hello" 10 = "hello" ∧
    truncateContent "0123456789X" 10 = "0123456789..." ∧
    truncateContent content = truncateContent content 100 := by
  refine ⟨?_, ?_, by decide, by decide, rfl⟩
  · intro h
    unfold truncateContent
    rw [if_pos h]
  · intro h
    unfold truncateContent
    rw [if_neg (Nat.not_le.mpr h)]

/-- Witness for C10: both branches at the spec's concrete examples. -/
theorem c10_truncateContent_spec_witness :
    (("hello" : String).length ≤ 10 ∧ truncateContent "hello" 10 = "hello") ∧
    (10 < ("0123456789X" : String).length ∧
      truncateContent "0123456789X" 10 =
        ("0123456789X" : String).take 10 ++ "...") :=
  ⟨⟨by decide, (c10_truncateContent_spec "hello" 10).1 (by decide)⟩,
   ⟨by decide, (c10_truncateContent_spec "0123456789X" 10).2.1 (by decide)⟩⟩

/-- C8: `fetchBlogPosts` sets the loading flag before its request settles,
requests endpoint `"blogs"`, on success stores the returned collection (the
empty list when the `data` field is missing), on failure only logs the error
and leaves the stored posts unchanged, and clears the loading flag in both
cases. -/
theorem c8_fetchBlogPosts_spec (apiKey : String) (net : Nat → NetResponse)
    (ls : ListState) (st : ApiState) :
    (fetchBlogPostsStart ls).isLoading = true ∧
    (fetchBlogPosts apiKey net ls st).1.isLoading = false ∧
    (∀ v, (fetchData apiKey net "blogs" {} st).result = .ok v →
      (fetchBlogPosts apiKey net ls st).1.blogPosts = v.dataPosts ∧
      (fetchBlogPosts apiKey net ls st).1.errorLog = ls.errorLog) ∧
    ((fetchData apiKey net "blogs" {} st).result = .ok (.posts none) →
      (fetchBlogPosts apiKey net ls st).1.blogPosts = []) ∧
    (∀ e, (fetchData apiKey net "blogs" {} st).result = .error e →
      (fetchBlogPosts apiKey net ls st).1.blogPosts = ls.blogPosts ∧
      (fetchBlogPosts apiKey net ls st).1.errorLog =
        ls.errorLog ++ [("Failed to fetch blog posts:", e)]) := by
  simp only [fetchBlogPosts]
  cases hr : (fetchData apiKey net "blogs" {} st).result with
  | ok w =>
    refine ⟨rfl, rfl, ?_, ?_, ?_⟩
    · intro v hv
      have hw : w = v := Except.ok.inj hv
      subst hw
      exact ⟨rfl, rfl⟩
    · intro hv
      have hw : w = .posts none := Except.ok.inj hv
      subst hw
      exact rfl
    · intro e he
      exact Except.noConfusion he
  | error e0 =>
    refine ⟨rfl, rfl, ?_, ?_, ?_⟩
    · intro v hv
      exact Except.noConfusion hv
    · intro hv
      exact Except.noConfusion hv
    · intro e he
      have he0 : e0 = e := Except.error.inj he
      subst he0
      exact ⟨rfl, rfl⟩

/-- Witness for C8: a failing load logs and leaves the previously stored post
list intact. -/
theorem c8_fetchBlogPosts_spec_witness :
    ((fetchData "key" (fun _ => .httpError "boom") "blogs" {} st0).result =
      .error "boom") ∧
    ((fetchBlogPosts "key" (fun _ => .httpError "boom") lsOnePost st0).1.blogPosts
        = lsOnePost.blogPosts ∧
     (fetchBlogPosts "key" (fun _ => .httpError "boom") lsOnePost st0).1.errorLog
        = lsOnePost.errorLog ++ [("Failed to fetch blog posts:", "boom")]) :=
  ⟨by decide,
   (c8_fetchBlogPosts_spec "key" (fun _ => .httpError "boom") lsOnePost
      st0).2.2.2.2 "boom" (by decide)⟩

/-- C3 counterexample: with a pending target (post 1, modal shown) and a
failing DELETE request, `proceedDelete` completes with the confirmation modal
still shown and the pending target still set — not back in Idle, contrary to
the claim's "whether the DELETE request succeeds or fails". -/
theorem c3_claim_counterexample :
    ((fetchData "key" (fun _ => .httpError "boom") "blogs/1"
        { method := "DELETE" } st0).result = .error "boom") ∧
    ¬ ((proceedDelete "key" (fun _ => .httpError "boom") lsPendingDelete
          st0).1.showConfirmModal = false ∧
       (proceedDelete "key" (fun _ => .httpError "boom") lsPendingDelete
          st0).1.postToDelete = none) := by
  decide

/-- C3 (amended): after `proceedDelete` completes on a (truthy) pending
target, the deleting flag is cleared in every case; the modal is hidden and
the pending target cleared when the DELETE request succeeds, while on a DELETE
failure the modal visibility and the pending target are left unchanged. -/
theorem c3_proceedDelete_outcome (apiKey : String) (net : Nat → NetResponse)
    (ls : ListState) (st : ApiState)
    (hpending : jsTruthyNum ls.postToDelete = true) :
    (proceedDelete apiKey net ls st).1.isDeleting = false ∧
    (∀ v, (fetchData apiKey net
        ("blogs/" ++ Nat.repr (ls.postToDelete.getD 0))
        { method := "DELETE" } st).result = .ok v →
      (proceedDelete apiKey net ls st).1.showConfirmModal = false ∧
      (proceedDelete apiKey net ls st).1.postToDelete = none) ∧
    (∀ e, (fetchData apiKey net
        ("blogs/" ++ Nat.repr (ls.postToDelete.getD 0))
        { method := "DELETE" } st).result = .error e →
      (proceedDelete apiKey net ls st).1.showConfirmModal =
        ls.showConfirmModal ∧
      (proceedDelete apiKey net ls st).1.postToDelete = ls.postToDelete) := by
  simp only [proceedDelete]
  rw [if_pos hpending]
  cases hr : (fetchData apiKey net
      ("blogs/" ++ Nat.repr (ls.postToDelete.getD 0))
      { method := "DELETE" } st).result with
  | ok w =>
    refine ⟨rfl, ?_, ?_⟩
    · intro v _
      exact ⟨rfl, rfl⟩
    · intro e he
      exact Except.noConfusion he
  | error e0 =>
    refine ⟨rfl, ?_, ?_⟩
    · intro v hv
      exact Except.noConfusion hv
    · intro e _
      exact ⟨rfl, rfl⟩

/-- Witness for C3 (amended): a successful DELETE on the pending target hides
the modal and clears the target. -/
theorem c3_proceedDelete_outcome_witness :
    (jsTruthyNum lsPendingDelete.postToDelete = true) ∧
    ((fetchData "key" (fun _ => .ok .nullv)
        ("blogs/" ++ Nat.repr (lsPendingDelete.postToDelete.getD 0))
        { method := "DELETE" } st0).result = .ok .nullv) ∧
    ((proceedDelete "key" (fun _ => .ok .nullv) lsPendingDelete
        st0).1.showConfirmModal = false ∧
     (proceedDelete "key" (fun _ => .ok .nullv) lsPendingDelete
        st0).1.postToDelete = none) :=
  ⟨by decide, by decide,
   (c3_proceedDelete_outcome "key" (fun _ => .ok .nullv) lsPendingDelete st0
      (by decide)).2.1 .nullv (by decide)⟩

/-- C4: `submitForm` resolves the author id to the id of the (first) loaded
author whose name equals the current-author string, falling back to the
draft's held author id when no name matches; when the resolved id is falsy
(zero/absent) it records exactly one error `"Author is required."` and issues
no api-client call and no network request; otherwise it sends the
`{title, content, author_id, status}` payload via PUT to `blogs/{id}` in edit
mode (the loaded post's truthy id) or POST to `blogs` in create mode. -/
theorem c4_submitForm_author_resolution (apiKey : String)
    (net : Nat → NetResponse) (fs : FormState) (st : ApiState) :
    (∀ a, fs.authors.find? (fun x => x.name == fs.currentAuthor) = some a →
      resolvedAuthorId fs = a.id) ∧
    (fs.authors.find? (fun x => x.name == fs.currentAuthor) = none →
      resolvedAuthorId fs = fs.form.author.id) ∧
    (resolvedAuthorId fs = 0 →
      (submitForm apiKey net fs st).fs.errors = ["Author is required."] ∧
      (submitForm apiKey net fs st).apiCalls = [] ∧
      (submitForm apiKey net fs st).netRequests = [] ∧
      (submitForm apiKey net fs st).st.netCount = st.netCount) ∧
    (resolvedAuthorId fs ≠ 0 → ∀ pid,
      fs.blogPost.bind ApiValue.idField = some pid → pid ≠ 0 →
      (submitForm apiKey net fs st).apiCalls.map Prod.fst =
        [{ endpoint := "blogs/" ++ Nat.repr pid,
           options := { method := "PUT", body := some ({
             title := fs.form.title, content := fs.form.content,
             author_id := resolvedAuthorId fs,
             status := fs.form.status } : Payload) } }]) ∧
    (resolvedAuthorId fs ≠ 0 → isEditMode fs = false →
      (submitForm apiKey net fs st).apiCalls.map Prod.fst =
        [{ endpoint := "blogs",
           options := { method := "POST", body := some ({
             title := fs.form.title, content := fs.form.content,
             author_id := resolvedAuthorId fs,
             status := fs.form.status } : Payload) } }]) := by
  refine ⟨?_, ?_, ?_, ?_, ?_⟩
  · intro a ha
    unfold resolvedAuthorId
    rw [ha]
  · intro h
    unfold resolvedAuthorId
    rw [h]
  · intro h0
    have hb : (resolvedAuthorId
        { fs with errors := [], isSubmitting := true } == 0) = true := by
      show (resolvedAuthorId fs == 0) = true
      rw [h0]
      rfl
    simp only [submitForm]
    rw [if_pos hb]
    exact ⟨rfl, rfl, rfl, rfl⟩
  · intro hne pid hpid hpid0
    have hb : ¬ ((resolvedAuthorId
        { fs with errors := [], isSubmitting := true } == 0) = true) := by
      show ¬ ((resolvedAuthorId fs == 0) = true)
      rw [beq_eq_false_iff_ne.mpr hne]
      exact Bool.false_ne_true
    have hedit : (isEditMode
        { fs with errors := [], isSubmitting := true }) = true := by
      show isEditMode fs = true
      unfold isEditMode
      rw [hpid]
      exact bne_iff_ne.mpr hpid0
    simp only [submitForm]
    rw [if_neg hb, if_pos hedit, hpid]
    split
    · rfl
    · rfl
  · intro hne heditf
    have hb : ¬ ((resolvedAuthorId
        { fs with errors := [], isSubmitting := true } == 0) = true) := by
      show ¬ ((resolvedAuthorId fs == 0) = true)
      rw [beq_eq_false_iff_ne.mpr hne]
      exact Bool.false_ne_true
    have hedit : ¬ ((isEditMode
        { fs with errors := [], isSubmitting := true }) = true) := by
      show ¬ (isEditMode fs = true)
      rw [heditf]
      exact Bool.false_ne_true
    simp only [submitForm]
    rw [if_neg hb, if_neg hedit]
    split
    · rfl
    · rfl

/-- Witness for C4: the spec's two concrete submissions — a create-mode submit
with author list `[{id 1, name "Ann"}]`, current author `"Ann"` and draft
author id 0 resolves to id 1 and issues a POST with `author_id = 1`; a submit
with no matching author and draft author id 0 records exactly one error and
issues no network request. -/
theorem c4_submitForm_author_resolution_witness :
    (resolvedAuthorId fsCreateAnn ≠ 0 ∧ isEditMode fsCreateAnn = false ∧
      (submitForm "key" (fun _ => .ok .nullv) fsCreateAnn
          st0).apiCalls.map Prod.fst =
        [{ endpoint := "blogs", options := { method := "POST", body := some ({
            title := "t", content := "c", author_id := 1,
            status := "published" } : Payload) } }]) ∧
    (resolvedAuthorId fsNoAuthor = 0 ∧
      (submitForm "key" (fun _ => .ok .nullv) fsNoAuthor st0).fs.errors =
        ["Author is required."] ∧
      (submitForm "key" (fun _ => .ok .nullv) fsNoAuthor st0).netRequests =
        []) :=
  ⟨⟨by decide, by decide,
    (c4_submitForm_author_resolution "key" (fun _ => .ok .nullv) fsCreateAnn
       st0).2.2.2.2 (by decide) (by decide)⟩,
   ⟨by decide,
    ((c4_submitForm_author_resolution "key" (fun _ => .ok .nullv) fsNoAuthor
       st0).2.2.1 (by decide)).1,
    ((c4_submitForm_author_resolution "key" (fun _ => .ok .nullv) fsNoAuthor
       st0).2.2.1 (by decide)).2.2.1⟩⟩

/-- C2: in edit mode, when `fetchBlogPost` has successfully fetched
`blogs/{id}` (thereby caching it under that key) and the key is not cleared
by any of the api-client operations that follow, `submitForm`'s PUT to
`blogs/{id}` is answered from the cache: the api client is called with the
PUT but returns the cached GET response, no network request is issued (the
request counter does not advance), the update never reaches the server, and
`submitForm` navigates away as if the update had succeeded. -/
theorem c2_edit_put_answered_from_cache (apiKey : String)
    (net : Nat → NetResponse) (routeId : String) (fs0 fs2 : FormState)
    (stInit : ApiState) (v : ApiValue) (pid : Nat) (ops : List ApiOp)
    (hrne : routeId ≠ "")
    (hrid : routeId = Nat.repr pid)
    (hok : (fetchData apiKey net ("blogs/" ++ routeId) {} stInit).result =
      .ok v)
    (hid : v.idField = some pid) (hpid : pid ≠ 0)
    (hops : ∀ op ∈ ops, op.clears ("blogs/" ++ routeId) = false)
    (hfs2 : fs2.blogPost = some v)
    (hauth : resolvedAuthorId fs2 ≠ 0) :
    (fetchBlogPost apiKey net routeId fs0 stInit).1.blogPost = some v ∧
    cacheGet (fetchBlogPost apiKey net routeId fs0 stInit).2.cache
      ("blogs/" ++ routeId) = some v ∧
    (submitForm apiKey net fs2 (runOps apiKey net ops
        (fetchBlogPost apiKey net routeId fs0 stInit).2)).apiCalls =
      [({ endpoint := "blogs/" ++ routeId,
          options := { method := "PUT", body := some ({
            title := fs2.form.title, content := fs2.form.content,
            author_id := resolvedAuthorId fs2,
            status := fs2.form.status } : Payload) } }, Except.ok v)] ∧
    (submitForm apiKey net fs2 (runOps apiKey net ops
        (fetchBlogPost apiKey net routeId fs0 stInit).2)).netRequests = [] ∧
    (submitForm apiKey net fs2 (runOps apiKey net ops
        (fetchBlogPost apiKey net routeId fs0 stInit).2)).st.netCount =
      (runOps apiKey net ops
        (fetchBlogPost apiKey net routeId fs0 stInit).2).netCount ∧
    (submitForm apiKey net fs2 (runOps apiKey net ops
        (fetchBlogPost apiKey net routeId fs0 stInit).2)).navigated =
      some "/" := by
  subst hrid
  have hbne : (Nat.repr pid != "") = true := by
    show (!(Nat.repr pid == "")) = true
    rw [beq_eq_false_iff_ne.mpr hrne]
    rfl
  have hstate : (fetchBlogPost apiKey net (Nat.repr pid) fs0 stInit).2 =
      (fetchData apiKey net ("blogs/" ++ Nat.repr pid) {} stInit).state := by
    simp only [fetchBlogPost]
    rw [if_pos hbne]
    split <;> rfl
  have hblog :
      (fetchBlogPost apiKey net (Nat.repr pid) fs0 stInit).1.blogPost =
        some v := by
    simp only [fetchBlogPost]
    rw [if_pos hbne, hok]
    cases v with
    | post p => rfl
    | nullv => exact Option.noConfusion hid
    | posts d => exact Option.noConfusion hid
    | authorsResp d => exact Option.noConfusion hid
  have hcached :
      cacheGet (fetchBlogPost apiKey net (Nat.repr pid) fs0 stInit).2.cache
        ("blogs/" ++ Nat.repr pid) = some v := by
    rw [hstate]
    exact fetchData_ok_cached apiKey net ("blogs/" ++ Nat.repr pid) {} stInit
      v hok
  have hcached2 :
      cacheGet (runOps apiKey net ops
          (fetchBlogPost apiKey net (Nat.repr pid) fs0 stInit).2).cache
        ("blogs/" ++ Nat.repr pid) = some v :=
    runOps_preserves_entry apiKey net ops ("blogs/" ++ Nat.repr pid) v
      (fetchBlogPost apiKey net (Nat.repr pid) fs0 stInit).2 hcached hops
  refine ⟨hblog, hcached, ?_⟩
  have hid2 : fs2.blogPost.bind ApiValue.idField = some pid := by
    rw [hfs2]
    exact hid
  have hb : ¬ ((resolvedAuthorId
      { fs2 with errors := [], isSubmitting := true } == 0) = true) := by
    show ¬ ((resolvedAuthorId fs2 == 0) = true)
    rw [beq_eq_false_iff_ne.mpr hauth]
    exact Bool.false_ne_true
  have hedit : (isEditMode
      { fs2 with errors := [], isSubmitting := true }) = true := by
    show isEditMode fs2 = true
    unfold isEditMode
    rw [hid2]
    exact bne_iff_ne.mpr hpid
  simp only [submitForm]
  rw [if_neg hb, if_pos hedit, hid2]
  simp only [jsNumOptToString]
  rw [fetchData_cache_hit apiKey net ("blogs/" ++ Nat.repr pid) _
    (runOps apiKey net ops
      (fetchBlogPost apiKey net (Nat.repr pid) fs0 stInit).2) v hcached2]
  exact ⟨rfl, rfl, rfl, rfl⟩

/-- Witness for C2: route id `"1"`, a server returning the post object for
`blogs/1`, no intervening operations; the later submit in edit mode makes one
PUT api call answered by the cached GET response, with no network request and
a navigation to home. -/
theorem c2_edit_put_answered_from_cache_witness :
    ((fetchData "key" (fun _ => .ok postV) "blogs/1" {} st0).result =
      .ok postV) ∧
    (resolvedAuthorId fsEdit ≠ 0) ∧
    ((submitForm "key" (fun _ => .ok postV) fsEdit (runOps "key"
        (fun _ => .ok postV) []
        (fetchBlogPost "key" (fun _ => .ok postV) "1" fsInit
          st0).2)).apiCalls =
      [({ endpoint := "blogs/1", options := { method := "PUT", body := some ({
            title := "", content := "", author_id := 1,
            status := "published" } : Payload) } }, Except.ok postV)]) ∧
    ((submitForm "key" (fun _ => .ok postV) fsEdit (runOps "key"
        (fun _ => .ok postV) []
        (fetchBlogPost "key" (fun _ => .ok postV) "1" fsInit
          st0).2)).netRequests = []) ∧
    ((submitForm "key" (fun _ => .ok postV) fsEdit (runOps "key"
        (fun _ => .ok postV) []
        (fetchBlogPost "key" (fun _ => .ok postV) "1" fsInit
          st0).2)).navigated = some "/") :=
  ⟨by decide, by decide,
   (c2_edit_put_answered_from_cache "key" (fun _ => .ok postV) "1" fsInit
      fsEdit st0 postV 1 [] (by decide) (by decide) (by decide) (by decide)
      (by decide) (by decide) (by decide) (by decide)).2.2.1,
   (c2_edit_put_answered_from_cache "key" (fun _ => .ok postV) "1" fsInit
      fsEdit st0 postV 1 [] (by decide) (by decide) (by decide) (by decide)
      (by decide) (by decide) (by decide) (by decide)).2.2.2.1,
   (c2_edit_put_answered_from_cache "key" (fun _ => .ok postV) "1" fsInit
      fsEdit st0 postV 1 [] (by decide) (by decide) (by decide) (by decide)
      (by decide) (by decide) (by decide) (by decide)).2.2.2.2.2⟩
